import Mathlib

/-!
Shallow embedding of the VLC macOS video-output window provider
(modules/video_output/window_macosx.m) and of the Qt main-interface
coordinator MainCtx (maininterface/main_interface.cpp), together with
proofs about the coordinator state model, the settings loader, the
fullscreen reconciliation logic, the drag-and-drop ingestor, and the
module open/close lifecycle.

Numeric conventions: C/Obj-C doubles and CGFloats are embedded as ℚ
(the program only compares, copies, scales and divides these values, and
the properties of interest are exact); unsigned ints are embedded as ℕ.
Qt signals and AppKit platform effects are made observable by letting
each embedded operation return, next to the successor state, the list of
signals it emits or of platform commands it issues, in program order.
-/

namespace Vlc

/-! ## MainCtx observable state model (main_interface.cpp) -/

/-- Grouping mode of the media views. Only GROUPING_NONE is named in the
sources at hand (default argument of the settings loader); the other
constructor stands for any distinct grouping mode. -/
inductive Grouping
  | GROUPING_NONE
  | GROUPING_OTHER
  deriving DecidableEq, Repr

/-- Color scheme of ColorSchemeModel. System is the default scheme used
by the settings loader; the other constructors stand for the remaining
schemes. -/
inductive ColorScheme
  | System
  | Day
  | Night
  deriving DecidableEq, Repr

/-- Qt change signals emitted by MainCtx, with the value they carry. -/
inductive Signal
  | playlistDockedChanged (v : Bool)
  | playlistVisibleChanged (v : Bool)
  | playlistWidthFactorChanged (v : ℚ)
  | gridViewChanged (v : Bool)
  | groupingChanged (g : Grouping)
  | showRemainingTimeChanged (v : Bool)
  | pinVideoControlsChanged (v : Bool)
  | interfaceAlwaysOnTopChanged (v : Bool)
  | intfScaleFactorChanged
  | acrylicActiveChanged
  | hasAcrylicSurfaceChanged
  | preferHotkeysChanged
  deriving DecidableEq, Repr

/-- Fields of MainCtx that the claims are about (member variables of the
C++ class, with their source names). -/
structure MainCtxState where
  b_playlistDocked : Bool
  playlistVisible : Bool
  playlistWidthFactor : ℚ
  m_gridView : Bool
  m_grouping : Grouping
  m_showRemainingTime : Bool
  m_pinVideoControls : Bool
  m_colorScheme : ColorScheme
  m_intfUserScaleFactor : ℚ
  b_interfaceOnTop : Bool
  m_acrylicActive : Bool
  m_hasAcrylicSurface : Bool
  m_preferHotkeys : Bool
  deriving DecidableEq, Repr

/-- MainCtx::setPlaylistDocked: unconditional assignment and emit. -/
def setPlaylistDocked (s : MainCtxState) (docked : Bool) :
    MainCtxState × List Signal :=
  ({ s with b_playlistDocked := docked },
   [Signal.playlistDockedChanged docked])

/-- MainCtx::setPlaylistVisible: unconditional assignment and emit. -/
def setPlaylistVisible (s : MainCtxState) (visible : Bool) :
    MainCtxState × List Signal :=
  ({ s with playlistVisible := visible },
   [Signal.playlistVisibleChanged visible])

/-- MainCtx::setPlaylistWidthFactor: assignment and emit only for a
strictly positive factor; otherwise nothing happens. -/
def setPlaylistWidthFactor (s : MainCtxState) (factor : ℚ) :
    MainCtxState × List Signal :=
  if factor > 0 then
    ({ s with playlistWidthFactor := factor },
     [Signal.playlistWidthFactorChanged factor])
  else
    (s, [])

/-- MainCtx::setShowRemainingTime: unconditional assignment and emit. -/
def setShowRemainingTime (s : MainCtxState) (show_ : Bool) :
    MainCtxState × List Signal :=
  ({ s with m_showRemainingTime := show_ },
   [Signal.showRemainingTimeChanged show_])

/-- MainCtx::setGridView: unconditional assignment and emit. -/
def setGridView (s : MainCtxState) (asGrid : Bool) :
    MainCtxState × List Signal :=
  ({ s with m_gridView := asGrid },
   [Signal.gridViewChanged asGrid])

/-- MainCtx::setGrouping: unconditional assignment and emit. -/
def setGrouping (s : MainCtxState) (grouping : Grouping) :
    MainCtxState × List Signal :=
  ({ s with m_grouping := grouping },
   [Signal.groupingChanged grouping])

/-- MainCtx::setInterfaceAlwaysOnTop: unconditional assignment and emit. -/
def setInterfaceAlwaysOnTop (s : MainCtxState) (on_top : Bool) :
    MainCtxState × List Signal :=
  ({ s with b_interfaceOnTop := on_top },
   [Signal.interfaceAlwaysOnTopChanged on_top])

/-- MainCtx::setPinVideoControls: equality-guarded; early return when the
new value equals the current one. -/
def setPinVideoControls (s : MainCtxState) (pinVideoControls : Bool) :
    MainCtxState × List Signal :=
  if s.m_pinVideoControls = pinVideoControls then
    (s, [])
  else
    ({ s with m_pinVideoControls := pinVideoControls },
     [Signal.pinVideoControlsChanged pinVideoControls])

/-- MainCtx::setAcrylicActive: equality-guarded. -/
def setAcrylicActive (s : MainCtxState) (newAcrylicActive : Bool) :
    MainCtxState × List Signal :=
  if s.m_acrylicActive = newAcrylicActive then
    (s, [])
  else
    ({ s with m_acrylicActive := newAcrylicActive },
     [Signal.acrylicActiveChanged])

/-- MainCtx::setHasAcrylicSurface: equality-guarded. -/
def setHasAcrylicSurface (s : MainCtxState) (v : Bool) :
    MainCtxState × List Signal :=
  if s.m_hasAcrylicSurface = v then
    (s, [])
  else
    ({ s with m_hasAcrylicSurface := v },
     [Signal.hasAcrylicSurfaceChanged])

/-- MainCtx::setPreferHotkeys: equality-guarded. -/
def setPreferHotkeys (s : MainCtxState) (enable : Bool) :
    MainCtxState × List Signal :=
  if s.m_preferHotkeys = enable then
    (s, [])
  else
    ({ s with m_preferHotkeys := enable },
     [Signal.preferHotkeysChanged])

/-! ## Settings store and MainCtx::loadFromSettingsImpl -/

/-- Typed value held by a QSettings entry (QVariant restricted to the
types actually read by loadFromSettingsImpl). -/
inductive SettingValue
  | b (x : Bool)
  | f (x : ℚ)
  | g (x : Grouping)
  | cs (x : ColorScheme)
  deriving DecidableEq, Repr

/-- QVariant::value conversion to bool; a missing or differently typed
entry converts to the default-constructed value. -/
def SettingValue.toBool : SettingValue → Bool
  | SettingValue.b x => x
  | _ => false

/-- QVariant conversion to a floating-point value (embedded as ℚ). -/
def SettingValue.toRat : SettingValue → ℚ
  | SettingValue.f x => x
  | _ => 0

/-- QVariant conversion to the Grouping enum. -/
def SettingValue.toGrouping : SettingValue → Grouping
  | SettingValue.g x => x
  | _ => Grouping.GROUPING_NONE

/-- QVariant conversion to the ColorScheme enum. -/
def SettingValue.toScheme : SettingValue → ColorScheme
  | SettingValue.cs x => x
  | _ => ColorScheme.System

/-- Persisted UI settings (QSettings), a keyed store of typed values. -/
structure SettingsStore where
  entries : List (String × SettingValue)

/-- QSettings::value with a default: the stored entry when the key is
present, the supplied default otherwise. -/
def SettingsStore.value (st : SettingsStore) (key : String)
    (dflt : SettingValue) : SettingValue :=
  match st.entries.lookup key with
  | some v => v
  | none => dflt

/-- A settings store with no entries at all (fresh installation). -/
def emptyStore : SettingsStore := { entries := [] }

/-- Body of the loadFromSettings lambda in MainCtx::loadFromSettingsImpl:
read the value, and when it differs from the current one return it with a
changed flag (the caller then assigns and possibly signals); when equal,
keep the current value and report no change. -/
def loadField {α : Type} [DecidableEq α] (cur value : α) : α × Bool :=
  if value = cur then (cur, false) else (value, true)

theorem loadField_fst {α : Type} [DecidableEq α] (cur value : α) :
    (loadField cur value).1 = value := by
  unfold loadField
  split
  next h => exact h.symm
  next h => rfl

/-- MainCtx::loadFromSettingsImpl: reload each persisted field from the
settings store (with its hard-coded default), emitting the per-field
change signal only when the value changed and callSignals is set; the
color scheme is reconciled through ColorSchemeModel::setCurrentScheme,
and the user interface scale factor comes from the engine-inherited
option qt-interface-scale unless that option is the sentinel -1, in which
case the persisted MainWindow/interface-scale value (default 1.0) is
used. The scale-factor change signal is emitted by
updateIntfScaleFactor regardless of callSignals, as in the source. -/
def loadFromSettingsImpl (s : MainCtxState) (store : SettingsStore)
    (inheritedIntfScale : ℚ) (callSignals : Bool) :
    MainCtxState × List Signal :=
  let pd := loadField s.b_playlistDocked
    ((store.value "MainWindow/pl-dock-status" (SettingValue.b true)).toBool)
  let pv := loadField s.playlistVisible
    ((store.value "MainWindow/playlist-visible" (SettingValue.b false)).toBool)
  let wf := loadField s.playlistWidthFactor
    ((store.value "MainWindow/playlist-width-factor" (SettingValue.f 4)).toRat)
  let gv := loadField s.m_gridView
    ((store.value "MainWindow/grid-view" (SettingValue.b true)).toBool)
  let gr := loadField s.m_grouping
    ((store.value "MainWindow/grouping" (SettingValue.g Grouping.GROUPING_NONE)).toGrouping)
  let srt := loadField s.m_showRemainingTime
    ((store.value "MainWindow/ShowRemainingTime" (SettingValue.b false)).toBool)
  let pvc := loadField s.m_pinVideoControls
    ((store.value "MainWindow/pin-video-controls" (SettingValue.b false)).toBool)
  let colorScheme :=
    (store.value "MainWindow/color-scheme" (SettingValue.cs ColorScheme.System)).toScheme
  let userIntfScaleFactor :=
    if inheritedIntfScale = -1 then
      (store.value "MainWindow/interface-scale" (SettingValue.f 1)).toRat
    else inheritedIntfScale
  let s1 : MainCtxState :=
    { s with
      b_playlistDocked := pd.1,
      playlistVisible := pv.1,
      playlistWidthFactor := wf.1,
      m_gridView := gv.1,
      m_grouping := gr.1,
      m_showRemainingTime := srt.1,
      m_pinVideoControls := pvc.1,
      m_colorScheme :=
        if s.m_colorScheme = colorScheme then s.m_colorScheme else colorScheme,
      m_intfUserScaleFactor :=
        if s.m_intfUserScaleFactor = userIntfScaleFactor then
          s.m_intfUserScaleFactor
        else userIntfScaleFactor }
  let sigs : List Signal :=
    (if callSignals = true ∧ pd.2 = true then
       [Signal.playlistDockedChanged pd.1] else []) ++
    (if callSignals = true ∧ pv.2 = true then
       [Signal.playlistVisibleChanged pv.1] else []) ++
    (if callSignals = true ∧ wf.2 = true then
       [Signal.playlistWidthFactorChanged wf.1] else []) ++
    (if callSignals = true ∧ gv.2 = true then
       [Signal.gridViewChanged gv.1] else []) ++
    (if callSignals = true ∧ gr.2 = true then
       [Signal.groupingChanged gr.1] else []) ++
    (if callSignals = true ∧ srt.2 = true then
       [Signal.showRemainingTimeChanged srt.1] else []) ++
    (if callSignals = true ∧ pvc.2 = true then
       [Signal.pinVideoControlsChanged pvc.1] else []) ++
    (if s.m_intfUserScaleFactor = userIntfScaleFactor then []
     else [Signal.intfScaleFactorChanged])
  (s1, sigs)

/-- A concrete MainCtx state used to instantiate theorems. -/
def initState : MainCtxState :=
  { b_playlistDocked := false
    playlistVisible := false
    playlistWidthFactor := 0
    m_gridView := false
    m_grouping := Grouping.GROUPING_NONE
    m_showRemainingTime := false
    m_pinVideoControls := false
    m_colorScheme := ColorScheme.System
    m_intfUserScaleFactor := 0
    b_interfaceOnTop := false
    m_acrylicActive := false
    m_hasAcrylicSurface := false
    m_preferHotkeys := false }

/-! ## macOS video-output window module (window_macosx.m)

The NSWindow owned by VLCVideoStandaloneWindowController is embedded by
the bits of its style mask and geometry that the module manipulates:
whether the decorated style mask is installed, whether the fullscreen
style-mask bit is set, the logical (point) content size, and whether the
window has been ordered front. Sizes exchanged with the engine are in
backing (device pixel) units; AppKit converts between the two through
the backing scale factor. -/

/-- Platform commands the controller issues to AppKit. -/
inductive PlatformCmd
  | toggleFullScreen
  deriving DecidableEq, Repr

/-- Events reported back to the VLC core through the module delegate
(vout_window_ReportFullscreen, ReportWindowed, ReportSize, ReportClose). -/
inductive Report
  | fullscreen
  | windowed
  | size (w h : ℕ)
  | close
  deriving DecidableEq, Repr

/-- State of the standalone video window (NSWindow plus the
backing scale factor of its screen). -/
structure NSWindowModel where
  backingScaleFactor : ℚ
  contentSize : ℚ × ℚ
  decorated : Bool
  fullscreen : Bool
  shown : Bool
  isKeyAndFront : Bool
  deriving DecidableEq, Repr

/-- Helper isWindowFullscreen: tests the fullscreen style-mask bit. -/
def isWindowFullscreen (w : NSWindowModel) : Bool := w.fullscreen

/-- NSWindow convertRectFromBacking: backing (pixel) units to logical
(point) units, dividing by the backing scale factor. -/
def convertRectFromBacking (scale : ℚ) (sz : ℚ × ℚ) : ℚ × ℚ :=
  (sz.1 / scale, sz.2 / scale)

/-- NSView convertRectToBacking: logical units to backing units,
multiplying by the backing scale factor. -/
def convertRectToBacking (scale : ℚ) (sz : ℚ × ℚ) : ℚ × ℚ :=
  (sz.1 * scale, sz.2 * scale)

/-- VLCVideoStandaloneWindowController setWindowFullscreen: when the
requested state already equals the actual one, only report the state to
the core and return; otherwise toggle the platform fullscreen state (the
report then comes from the window delegate notification). -/
def setWindowFullscreen (w : NSWindowModel) (fullscreen : Bool) :
    List PlatformCmd × List Report :=
  if fullscreen = isWindowFullscreen w then
    ([], [if fullscreen then Report.fullscreen else Report.windowed])
  else
    ([PlatformCmd.toggleFullScreen], [])

/-- Window delegate windowDidEnterFullScreen: report fullscreen. -/
def windowDidEnterFullScreen : List Report := [Report.fullscreen]

/-- Window delegate windowDidExitFullScreen: report windowed. -/
def windowDidExitFullScreen : List Report := [Report.windowed]

/-- VLCVideoWindowContentView reportBackingSize followed by the C cast to
unsigned int inside reportSizeChanged: convert the view bounds to backing
units and truncate each coordinate to an unsigned integer. -/
def reportedBackingSize (scale : ℚ) (bounds : ℚ × ℚ) : ℕ × ℕ :=
  let backing := convertRectToBacking scale bounds
  ((Int.floor backing.1).toNat, (Int.floor backing.2).toNat)

/-- WindowResize followed by the resize notification: the engine size
request (backing units) is converted to logical units for setContentSize,
the content view takes that size, and resizeSubviewsWithOldSize reports
the view bounds back in backing units. -/
def windowResizeThenReport (scale : ℚ) (width height : ℕ) : ℕ × ℕ :=
  let windowRect := convertRectFromBacking scale ((width : ℚ), (height : ℚ))
  reportedBackingSize scale windowRect

/-! ## Module delegate, teardown, enable and open -/

/-- VLCVideoWindowModuleDelegate: holds the VLC vout window pointer,
which dealloc invalidates (sets to NULL after draining the serial event
queue). The pointer is embedded as an optional engine handle. -/
structure ModuleDelegate where
  vlcVoutWindow : Option ℕ
  deriving DecidableEq, Repr

/-- Delegate dealloc: drain the event queue and null the engine pointer. -/
def delegateDealloc (d : ModuleDelegate) : ModuleDelegate :=
  { d with vlcVoutWindow := none }

/-- Sending reportFullscreen to a (weak, hence possibly nil) delegate
reference: an Objective-C message to nil does nothing, so a nil
reference enqueues and delivers no event. -/
def msgReportFullscreen : Option ModuleDelegate → List Report
  | none => []
  | some _ => [Report.fullscreen]

/-- Sending reportWindowed to a possibly nil delegate reference. -/
def msgReportWindowed : Option ModuleDelegate → List Report
  | none => []
  | some _ => [Report.windowed]

/-- Sending reportSizeChanged to a possibly nil delegate reference. -/
def msgReportSizeChanged (d : Option ModuleDelegate) (w h : ℕ) : List Report :=
  match d with
  | none => []
  | some _ => [Report.size w h]

/-- Sending reportClose to a possibly nil delegate reference. -/
def msgReportClose : Option ModuleDelegate → List Report
  | none => []
  | some _ => [Report.close]

/-- vout_window_sys_t: the strong references the module keeps to the
window controller (embedded by its window state) and the delegate. -/
structure VoutWindowSys where
  windowController : Option NSWindowModel
  delegate : Option ModuleDelegate
  deriving DecidableEq, Repr

/-- Module Close callback: nil both strong references, so the controller
and the delegate are released and every weak reference to them reads as
nil afterwards. -/
def Close (_sys : VoutWindowSys) : VoutWindowSys :=
  { windowController := none, delegate := none }

/-- VLC result codes used by the module. -/
inductive VlcResult
  | VLC_SUCCESS
  | VLC_EGENERIC
  | VLC_ENOMEM
  deriving DecidableEq, Repr

/-- Engine window configuration passed to enable (vout_window_cfg_t
fields used by the module): size in backing pixels and decoration. -/
structure WindowCfg where
  width : ℕ
  height : ℕ
  is_decorated : Bool
  deriving DecidableEq, Repr

/-- User-interface actions performed on the window, in program order. -/
inductive UIAction
  | setContentSize (sz : ℚ × ℚ)
  | setDecorated (d : Bool)
  | showWindow
  | makeKeyAndOrderFront
  deriving DecidableEq, Repr

/-- Controller setWindowDecorated: install the decorated or undecorated
style mask. -/
def setWindowDecorated (w : NSWindowModel) (decorated : Bool) :
    NSWindowModel :=
  { w with decorated := decorated }

/-- Controller showWindowWithConfig: convert the configured backing size
to logical units and set it as content size, apply the decoration, and
only then show the window and make it key and front. -/
def showWindowWithConfig (w : NSWindowModel) (cfg : WindowCfg) :
    NSWindowModel × List UIAction :=
  let windowRect :=
    convertRectFromBacking w.backingScaleFactor ((cfg.width : ℚ), (cfg.height : ℚ))
  let w1 := { w with contentSize := windowRect }
  let w2 := setWindowDecorated w1 cfg.is_decorated
  let w3 := { w2 with shown := true, isKeyAndFront := true }
  (w3, [UIAction.setContentSize windowRect,
        UIAction.setDecorated cfg.is_decorated,
        UIAction.showWindow,
        UIAction.makeKeyAndOrderFront])

/-- Module WindowEnable callback: dispatch showWindowWithConfig
synchronously onto the main queue through a weak controller reference
(dispatch_sync, embedded as sequential execution: the effects of the
block are complete in the returned state before the call returns), then
return VLC_SUCCESS. A nil weak reference makes the block a no-op. -/
def WindowEnable (sys : VoutWindowSys) (cfg : WindowCfg) :
    VlcResult × VoutWindowSys × List UIAction :=
  match sys.windowController with
  | none => (VlcResult.VLC_SUCCESS, sys, [])
  | some w =>
    let r := showWindowWithConfig w cfg
    (VlcResult.VLC_SUCCESS, { sys with windowController := some r.1 }, r.2)

/-- Host and allocator conditions observed by the module Open callback. -/
structure OpenEnv where
  nsAppPresent : Bool
  sysCallocOk : Bool
  delegateAllocOk : Bool
  windowControllerAllocOk : Bool
  deriving DecidableEq, Repr

/-- The vout_window_t fields that Open initializes: the sys pointer and
whether the window operations table was installed into wnd->ops. -/
structure VoutWindowT where
  sys : Option VoutWindowSys
  opsInstalled : Bool
  deriving DecidableEq, Repr

/-- Window created by the controller initializer: decorated style mask,
zero content rect, centered, not yet shown. -/
def initialWindow (scale : ℚ) : NSWindowModel :=
  { backingScaleFactor := scale
    contentSize := (0, 0)
    decorated := true
    fullscreen := false
    shown := false
    isKeyAndFront := false }

/-- Module Open callback: fail with VLC_EGENERIC when no NSApplication
exists (the window server connection is unavailable), leaving the vout
window untouched; fail with VLC_ENOMEM when an allocation fails; on
success store the delegate and window controller in sys and install the
operations table. -/
def Open (env : OpenEnv) (wndId : ℕ) (scale : ℚ) (wnd : VoutWindowT) :
    VlcResult × VoutWindowT :=
  if env.nsAppPresent = false then
    (VlcResult.VLC_EGENERIC, wnd)
  else if env.sysCallocOk = false then
    (VlcResult.VLC_ENOMEM, wnd)
  else if env.delegateAllocOk = false then
    (VlcResult.VLC_ENOMEM, wnd)
  else if env.windowControllerAllocOk = false then
    (VlcResult.VLC_ENOMEM, wnd)
  else
    (VlcResult.VLC_SUCCESS,
     { sys := some
         { windowController := some (initialWindow scale)
           delegate := some { vlcVoutWindow := some wndId } }
       opsInstalled := true })

/-! ## Drag-and-drop ingestor (MainCtx::dropEventPlay)

The Qt event and player collaborators are embedded as follows: the mime
data carries a list of QUrls and optional text; the player environment
supplies whether media is active (hasInput), the result code of
PlayerController::AddAssociatedMedia (0 is VLC_SUCCESS), the toURI
conversion from qt_dirs, and QUrl validity of plain text. The Windows
symbolic-link branch is compiled out on this platform and not embedded. -/

/-- QUrl: its string form (toString and toEncoded coincide on the
embedded level) and its validity. -/
structure QUrl where
  urlString : String
  isValid : Bool
  deriving DecidableEq, Repr

/-- QMimeData: the dropped URL list and the optional text payload. -/
structure MimeData where
  urls : List QUrl
  text : Option String
  deriving DecidableEq, Repr

/-- QMimeData hasUrls: whether a URL list is present. -/
def MimeData.hasUrls (m : MimeData) : Bool := !m.urls.isEmpty

/-- External collaborators of dropEventPlay. -/
structure DropEnv where
  hasInput : Bool
  addAssociatedMedia : String → ℤ
  toURI : String → String
  textIsValidUrl : String → Bool

/-- Outcome of a drop: the URL attached as a subtitle track if any, the
media resource locators appended to the playback queue, and whether the
event was accepted. -/
structure DropOutcome where
  subtitleAttached : Option String
  appendedMedias : List String
  accepted : Bool
  deriving DecidableEq, Repr

/-- Loop of dropEventPlay over mimeData urls, plus the text fallback:
every valid URL whose toURI conversion is nonempty becomes a media
entry; when no URL list is present but the text parses as a valid URL,
its conversion is appended as a single entry. -/
def collectMedias (env : DropEnv) (mime : MimeData) : List String :=
  let fromUrls := (mime.urls.filter (fun u => u.isValid)).filterMap
    (fun u =>
      let mrl := env.toURI u.urlString
      if mrl.length > 0 then some mrl else none)
  let textValid : Bool :=
    match mime.text with
    | some t => env.textIsValidUrl t
    | none => false
  if mime.hasUrls = false ∧ textValid = true then
    fromUrls ++ [env.toURI (mime.text.getD "")]
  else fromUrls

/-- MainCtx::dropEventPlay: when the drop action is not acceptable the
event is ignored; when exactly one URL is dropped while media is active,
first try to attach it as a subtitle (SPU) track and stop on success;
otherwise build the media list and append it to the playlist. -/
def dropEventPlay (env : DropEnv) (mime : MimeData) (actionOk : Bool) :
    DropOutcome :=
  if actionOk = false then
    { subtitleAttached := none, appendedMedias := [], accepted := false }
  else
    match mime.urls, env.hasInput with
    | [u], true =>
      if env.addAssociatedMedia u.urlString = 0 then
        { subtitleAttached := some u.urlString
          appendedMedias := []
          accepted := true }
      else
        { subtitleAttached := none
          appendedMedias := collectMedias env mime
          accepted := true }
    | _, _ =>
      { subtitleAttached := none
        appendedMedias := collectMedias env mime
        accepted := true }

/-! ## Theorems -/

/-- C1 counterexample: writing the current value back through
MainCtx::setPlaylistDocked does emit playlistDockedChanged, so a no-op
write is not signal-free. Concretely, on a state whose playlist is
docked, setting docked to true again emits one change signal. -/
theorem C1_counterexample :
    ({ initState with b_playlistDocked := true } : MainCtxState).b_playlistDocked
        = true ∧
    (setPlaylistDocked { initState with b_playlistDocked := true } true).2 =
      [Signal.playlistDockedChanged true] := by
  exact ⟨rfl, rfl⟩

/-- C1 amended: writing the current value back leaves the state itself
unchanged for every setter, but only the equality-guarded setters
(pin-video-controls, acrylic-active, has-acrylic-surface,
prefer-hotkeys) skip the notification; the setters for playlist docked,
playlist visible, show-remaining-time, grid view, grouping and
interface-on-top assign unconditionally and emit exactly one change
signal even when the new value equals the current one. -/
theorem C1_amended (s : MainCtxState) :
    setPlaylistDocked s s.b_playlistDocked =
      (s, [Signal.playlistDockedChanged s.b_playlistDocked]) ∧
    setPlaylistVisible s s.playlistVisible =
      (s, [Signal.playlistVisibleChanged s.playlistVisible]) ∧
    setShowRemainingTime s s.m_showRemainingTime =
      (s, [Signal.showRemainingTimeChanged s.m_showRemainingTime]) ∧
    setGridView s s.m_gridView =
      (s, [Signal.gridViewChanged s.m_gridView]) ∧
    setGrouping s s.m_grouping =
      (s, [Signal.groupingChanged s.m_grouping]) ∧
    setInterfaceAlwaysOnTop s s.b_interfaceOnTop =
      (s, [Signal.interfaceAlwaysOnTopChanged s.b_interfaceOnTop]) ∧
    setPinVideoControls s s.m_pinVideoControls = (s, []) ∧
    setAcrylicActive s s.m_acrylicActive = (s, []) ∧
    setHasAcrylicSurface s s.m_hasAcrylicSurface = (s, []) ∧
    setPreferHotkeys s s.m_preferHotkeys = (s, []) := by
  refine ⟨rfl, rfl, rfl, rfl, rfl, rfl, ?_, ?_, ?_, ?_⟩ <;>
    simp [setPinVideoControls, setAcrylicActive, setHasAcrylicSurface,
      setPreferHotkeys]

/-- C10: MainCtx::setPlaylistWidthFactor ignores every factor that is
not strictly positive (no assignment, no signal) and, for a strictly
positive factor, assigns it and emits exactly one change signal, with no
equality short-circuit. -/
theorem C10_widthFactor (s : MainCtxState) (factor : ℚ) :
    (factor ≤ 0 → setPlaylistWidthFactor s factor = (s, [])) ∧
    (0 < factor → setPlaylistWidthFactor s factor =
      ({ s with playlistWidthFactor := factor },
       [Signal.playlistWidthFactorChanged factor])) := by
  constructor
  · intro h
    unfold setPlaylistWidthFactor
    rw [if_neg (not_lt.mpr h)]
  · intro h
    unfold setPlaylistWidthFactor
    rw [if_pos h]

/-- C10 witness: a non-positive factor is dropped silently and a
positive one is stored and signalled, at concrete inputs. -/
theorem C10_widthFactor_witness :
    setPlaylistWidthFactor initState (-3) = (initState, []) ∧
    setPlaylistWidthFactor initState 5 =
      ({ initState with playlistWidthFactor := 5 },
       [Signal.playlistWidthFactorChanged 5]) := by
  constructor
  · exact (C10_widthFactor initState (-3)).1 (by norm_num)
  · exact (C10_widthFactor initState 5).2 (by norm_num)

/-- C4: loading from an empty settings store (with the engine-inherited
scale at its no-override sentinel -1) yields exactly the documented
defaults: playlist docked true, playlist visible false, playlist width
factor 4, grid view true, grouping NONE, color scheme System, interface
scale 1. -/
theorem C4_defaults (s : MainCtxState) (callSignals : Bool) :
    (loadFromSettingsImpl s emptyStore (-1) callSignals).1.b_playlistDocked
        = true ∧
    (loadFromSettingsImpl s emptyStore (-1) callSignals).1.playlistVisible
        = false ∧
    (loadFromSettingsImpl s emptyStore (-1) callSignals).1.playlistWidthFactor
        = 4 ∧
    (loadFromSettingsImpl s emptyStore (-1) callSignals).1.m_gridView
        = true ∧
    (loadFromSettingsImpl s emptyStore (-1) callSignals).1.m_grouping
        = Grouping.GROUPING_NONE ∧
    (loadFromSettingsImpl s emptyStore (-1) callSignals).1.m_colorScheme
        = ColorScheme.System ∧
    (loadFromSettingsImpl s emptyStore (-1) callSignals).1.m_intfUserScaleFactor
        = 1 := by
  refine ⟨?_, ?_, ?_, ?_, ?_, ?_, ?_⟩ <;>
    simp [loadFromSettingsImpl, emptyStore, SettingsStore.value,
      SettingValue.toBool, SettingValue.toRat, SettingValue.toGrouping,
      SettingValue.toScheme, loadField_fst]

/-- C5: on every settings load the user interface scale factor comes
from the engine-inherited qt-interface-scale option whenever it is not
the sentinel -1, whatever the persisted store holds; only at the
sentinel does the persisted MainWindow/interface-scale value (default 1)
apply. -/
theorem C5_scalePrecedence (s : MainCtxState) (store : SettingsStore)
    (callSignals : Bool) (inh : ℚ) :
    (inh ≠ -1 →
      (loadFromSettingsImpl s store inh callSignals).1.m_intfUserScaleFactor
        = inh) ∧
    (inh = -1 →
      (loadFromSettingsImpl s store inh callSignals).1.m_intfUserScaleFactor
        = (store.value "MainWindow/interface-scale" (SettingValue.f 1)).toRat) := by
  constructor <;> intro h <;>
    simp [loadFromSettingsImpl, loadField_fst, h]

/-- A store that persists an interface scale of 7, used to show the
engine-inherited value takes precedence over it. -/
def scaleStore : SettingsStore :=
  { entries := [("MainWindow/interface-scale", SettingValue.f 7)] }

/-- C5 witness: with a persisted scale of 7, an inherited value 2 wins;
the persisted 7 applies only at the sentinel -1. -/
theorem C5_witness :
    (loadFromSettingsImpl initState scaleStore 2 true).1.m_intfUserScaleFactor
        = 2 ∧
    (loadFromSettingsImpl initState scaleStore (-1) true).1.m_intfUserScaleFactor
        = 7 := by
  constructor
  · exact (C5_scalePrecedence initState scaleStore true 2).1 (by norm_num)
  · have h := (C5_scalePrecedence initState scaleStore true (-1)).2 rfl
    rw [h]
    decide

/-- C2: a fullscreen request that matches the actual window state only
reports that state back to the core (reportFullscreen when fullscreen,
reportWindowed when windowed) and issues no platform toggle; a request
that differs issues exactly one toggle and reports nothing immediately,
the report coming from the asynchronous completion notifications
windowDidEnterFullScreen and windowDidExitFullScreen. -/
theorem C2_fullscreenReconcile (w : NSWindowModel) (f : Bool) :
    (f = isWindowFullscreen w →
      setWindowFullscreen w f =
        ([], [if f then Report.fullscreen else Report.windowed])) ∧
    (f ≠ isWindowFullscreen w →
      setWindowFullscreen w f = ([PlatformCmd.toggleFullScreen], [])) ∧
    windowDidEnterFullScreen = [Report.fullscreen] ∧
    windowDidExitFullScreen = [Report.windowed] := by
  refine ⟨?_, ?_, rfl, rfl⟩ <;> intro h <;> simp [setWindowFullscreen, h]

/-- A shown, windowed (non-fullscreen) standalone video window. -/
def windowedWindow : NSWindowModel :=
  { backingScaleFactor := 2
    contentSize := (400, 300)
    decorated := true
    fullscreen := false
    shown := true
    isKeyAndFront := true }

/-- C2 witness: on a windowed window, an unset-fullscreen request only
reports windowed, and a set-fullscreen request issues one toggle and no
report. -/
theorem C2_witness :
    setWindowFullscreen windowedWindow false = ([], [Report.windowed]) ∧
    setWindowFullscreen windowedWindow true =
      ([PlatformCmd.toggleFullScreen], []) := by
  constructor
  · have h := (C2_fullscreenReconcile windowedWindow false).1 rfl
    simpa using h
  · exact (C2_fullscreenReconcile windowedWindow true).2.1 (by decide)

/-- C6: sizes cross the engine boundary in backing units and the
logical/backing conversions are mutually inverse: for a positive backing
scale factor and a size aligned to it, resizing to (w, h) backing pixels
and reporting the resulting view size back in backing units returns
exactly (w, h). -/
theorem C6_sizeRoundTrip (scale : ℚ) (width height : ℕ)
    (hs : 0 < scale)
    (_hw : ∃ k : ℕ, (width : ℚ) = scale * k)
    (_hh : ∃ k : ℕ, (height : ℚ) = scale * k) :
    windowResizeThenReport scale width height = (width, height) := by
  have hs0 : scale ≠ 0 := ne_of_gt hs
  unfold windowResizeThenReport reportedBackingSize convertRectFromBacking
    convertRectToBacking
  simp [div_mul_cancel₀, hs0, Int.floor_natCast]

/-- C6 witness: with backing scale factor 2, the aligned request
(4, 6) round-trips exactly. -/
theorem C6_witness : windowResizeThenReport 2 4 6 = (4, 6) :=
  C6_sizeRoundTrip 2 4 6 (by norm_num) ⟨2, by norm_num⟩ ⟨3, by norm_num⟩

/-- C7: after module teardown (Close nils the strong controller and
delegate references, and the delegate dealloc nulls its engine pointer),
the weak delegate references read as nil and each report message —
fullscreen, windowed, size, close — delivers nothing to the engine; all
the embedded operations are total, so no crash occurs. -/
theorem C7_teardownNoop (sys : VoutWindowSys) (w h : ℕ)
    (d : ModuleDelegate) :
    (Close sys).windowController = none ∧
    (Close sys).delegate = none ∧
    (delegateDealloc d).vlcVoutWindow = none ∧
    msgReportFullscreen (Close sys).delegate = [] ∧
    msgReportWindowed (Close sys).delegate = [] ∧
    msgReportSizeChanged (Close sys).delegate w h = [] ∧
    msgReportClose (Close sys).delegate = [] :=
  ⟨rfl, rfl, rfl, rfl, rfl, rfl, rfl⟩

/-- C8: when no NSApplication exists, Open fails with VLC_EGENERIC and
leaves the vout window untouched (no sys, no operations table); when the
host windowing subsystem is available and the allocations succeed, Open
returns VLC_SUCCESS with the delegate and window controller stored in
sys and the operations table installed. -/
theorem C8_openFailure (env : OpenEnv) (wndId : ℕ) (scale : ℚ)
    (wnd : VoutWindowT) :
    (env.nsAppPresent = false →
      Open env wndId scale wnd = (VlcResult.VLC_EGENERIC, wnd)) ∧
    (env.nsAppPresent = true → env.sysCallocOk = true →
     env.delegateAllocOk = true → env.windowControllerAllocOk = true →
      Open env wndId scale wnd =
        (VlcResult.VLC_SUCCESS,
         { sys := some
             { windowController := some (initialWindow scale)
               delegate := some { vlcVoutWindow := some wndId } }
           opsInstalled := true })) := by
  constructor
  · intro h
    simp [Open, h]
  · intro h1 h2 h3 h4
    simp [Open, h1, h2, h3, h4]

/-- A vout window before Open runs: no sys, no operations installed. -/
def pristineWnd : VoutWindowT := { sys := none, opsInstalled := false }

/-- C8 witness: without NSApplication Open fails generically and leaves
the window pristine; with everything available it succeeds and installs
the operations table. -/
theorem C8_witness :
    Open ⟨false, true, true, true⟩ 7 2 pristineWnd =
      (VlcResult.VLC_EGENERIC, pristineWnd) ∧
    (Open ⟨true, true, true, true⟩ 7 2 pristineWnd).1 =
      VlcResult.VLC_SUCCESS ∧
    (Open ⟨true, true, true, true⟩ 7 2 pristineWnd).2.opsInstalled = true := by
  refine ⟨(C8_openFailure ⟨false, true, true, true⟩ 7 2 pristineWnd).1 rfl,
    ?_, ?_⟩ <;>
    rw [(C8_openFailure ⟨true, true, true, true⟩ 7 2 pristineWnd).2
      rfl rfl rfl rfl]

/-- C9: WindowEnable always returns VLC_SUCCESS, and — the enabling
call being synchronous — when the controller is alive its returned
state already has the window configured and shown: content size set from
the backing configuration, decoration applied, window shown and made key
and front, with the configuration actions strictly preceding the show
actions in the performed sequence. -/
theorem C9_enableSynchronous (sys : VoutWindowSys) (cfg : WindowCfg)
    (w : NSWindowModel) :
    (WindowEnable sys cfg).1 = VlcResult.VLC_SUCCESS ∧
    (sys.windowController = some w →
      ∃ w2,
        (WindowEnable sys cfg).2.1.windowController = some w2 ∧
        w2.shown = true ∧
        w2.isKeyAndFront = true ∧
        w2.contentSize =
          convertRectFromBacking w.backingScaleFactor
            ((cfg.width : ℚ), (cfg.height : ℚ)) ∧
        w2.decorated = cfg.is_decorated ∧
        (WindowEnable sys cfg).2.2 =
          [UIAction.setContentSize w2.contentSize,
           UIAction.setDecorated cfg.is_decorated,
           UIAction.showWindow,
           UIAction.makeKeyAndOrderFront]) := by
  constructor
  · unfold WindowEnable
    cases sys.windowController <;> rfl
  · intro hw
    refine ⟨(showWindowWithConfig w cfg).1, ?_⟩
    unfold WindowEnable
    rw [hw]
    simp [showWindowWithConfig, setWindowDecorated]

/-- Module state right after a successful Open, with a live controller. -/
def enableSys : VoutWindowSys :=
  { windowController := some (initialWindow 2)
    delegate := some { vlcVoutWindow := some 7 } }

/-- Engine configuration used to enable the window. -/
def enableCfg : WindowCfg := { width := 800, height := 600, is_decorated := true }

/-- C9 witness: enabling the freshly opened window returns success with
the window shown in the returned state. -/
theorem C9_witness :
    (WindowEnable enableSys enableCfg).1 = VlcResult.VLC_SUCCESS ∧
    ∃ w2,
      (WindowEnable enableSys enableCfg).2.1.windowController = some w2 ∧
      w2.shown = true := by
  obtain ⟨h1, h2⟩ := C9_enableSynchronous enableSys enableCfg (initialWindow 2)
  obtain ⟨w2, hw2, hs, _⟩ := h2 rfl
  exact ⟨h1, w2, hw2, hs⟩

/-- Membership in the media list collected by dropEventPlay: every valid
dropped URL whose conversion is a nonempty locator appears in the list. -/
theorem mem_collectMedias (env : DropEnv) (mime : MimeData) (u : QUrl)
    (hu : u ∈ mime.urls) (hv : u.isValid = true)
    (hl : (env.toURI u.urlString).length > 0) :
    env.toURI u.urlString ∈ collectMedias env mime := by
  have hmem : env.toURI u.urlString ∈
      (mime.urls.filter (fun x => x.isValid)).filterMap
        (fun x =>
          let mrl := env.toURI x.urlString
          if mrl.length > 0 then some mrl else none) := by
    apply List.mem_filterMap.mpr
    exact ⟨u, List.mem_filter.mpr ⟨hu, hv⟩, by simp [hl]⟩
  unfold collectMedias
  dsimp only
  split
  · exact List.mem_append_left _ hmem
  · exact hmem

/-- Drop handling when no media is active: the subtitle path is never
taken and the collected media list is appended wholesale. -/
theorem dropEventPlay_noInput (env : DropEnv) (mime : MimeData)
    (h : env.hasInput = false) :
    dropEventPlay env mime true =
      { subtitleAttached := none
        appendedMedias := collectMedias env mime
        accepted := true } := by
  obtain ⟨urls, txt⟩ := mime
  unfold dropEventPlay
  rcases urls with _ | ⟨x, _ | ⟨y, t⟩⟩ <;> simp [h]

/-- C3: dropping exactly one URL while media is active first attempts to
attach it as a subtitle (SPU) track; on success the playback queue is
left unchanged, and only on rejection does the URL (when valid, with a
nonempty conversion) get appended to the queue; with no active media,
every valid dropped URL with a nonempty conversion is appended. -/
theorem C3_dropIngest (env : DropEnv) (mime : MimeData) :
    (∀ u, mime.urls = [u] → env.hasInput = true →
      ((env.addAssociatedMedia u.urlString = 0 →
          dropEventPlay env mime true =
            { subtitleAttached := some u.urlString
              appendedMedias := []
              accepted := true }) ∧
       (env.addAssociatedMedia u.urlString ≠ 0 →
          u.isValid = true → (env.toURI u.urlString).length > 0 →
          (dropEventPlay env mime true).subtitleAttached = none ∧
          env.toURI u.urlString ∈
            (dropEventPlay env mime true).appendedMedias))) ∧
    (env.hasInput = false → ∀ u, u ∈ mime.urls → u.isValid = true →
      (env.toURI u.urlString).length > 0 →
      env.toURI u.urlString ∈
        (dropEventPlay env mime true).appendedMedias) := by
  constructor
  · intro u hurls hinput
    constructor
    · intro hadd
      simp [dropEventPlay, hurls, hinput, hadd]
    · intro hadd hv hl
      have hmem := mem_collectMedias env mime u
        (by rw [hurls]; exact List.mem_singleton_self u) hv hl
      constructor <;> simp [dropEventPlay, hurls, hinput, hadd, hmem]
  · intro hinput u hu hv hl
    rw [dropEventPlay_noInput env mime hinput]
    exact mem_collectMedias env mime u hu hv hl

/-- Mime payload of a drop of a single subtitle file. -/
def dropMimeSub : MimeData :=
  { urls := [{ urlString := "file:///sub.srt", isValid := true }]
    text := none }

/-- Player environment with active media that accepts the subtitle. -/
def dropEnvAttach : DropEnv :=
  { hasInput := true
    addAssociatedMedia := fun _ => 0
    toURI := fun s => s
    textIsValidUrl := fun _ => false }

/-- Mime payload of a drop of a single movie file. -/
def dropMimeMovie : MimeData :=
  { urls := [{ urlString := "file:///movie.mp4", isValid := true }]
    text := none }

/-- Player environment with no active media. -/
def dropEnvIdle : DropEnv :=
  { hasInput := false
    addAssociatedMedia := fun _ => 0
    toURI := fun s => s
    textIsValidUrl := fun _ => false }

/-- C3 witness: dropping one subtitle URL on active media attaches it
and leaves the queue unchanged; dropping one movie URL with no active
media appends it to the queue. -/
theorem C3_witness :
    dropEventPlay dropEnvAttach dropMimeSub true =
      { subtitleAttached := some "file:///sub.srt"
        appendedMedias := []
        accepted := true } ∧
    "file:///movie.mp4" ∈
      (dropEventPlay dropEnvIdle dropMimeMovie true).appendedMedias := by
  constructor
  · exact ((C3_dropIngest dropEnvAttach dropMimeSub).1
      ⟨"file:///sub.srt", true⟩ rfl rfl).1 rfl
  · exact (C3_dropIngest dropEnvIdle dropMimeMovie).2 rfl
      ⟨"file:///movie.mp4", true⟩ (by simp [dropMimeMovie]) rfl (by decide)

end Vlc
